import Mathlib

/-!
Verification of the client-side request/response contract and
conversational-state reducer of the Financial-Research-Agent frontend.

The development shallowly embeds the two React components
(`ResearchAgent.jsx`, `FloatingAgent.jsx`) and the API wrapper module
(`agentApi.js`).  JavaScript objects with optional fields are embedded as
structures with `Option` fields (`none` = the field is absent /
`undefined`); JavaScript truthiness is made explicit through the
`truthyStr` / `jsTruthy` / `JsVal.truthy` functions; `fetch` — the single
network round trip each API wrapper performs — is abstracted as an
`HttpResp` argument holding the HTTP status and the parsed JSON body;
`Date.now()` readings are passed in as explicit clock arguments.
-/

/-- Embedding of an arbitrary JSON/JavaScript value, used where the code
inspects a backend-supplied field generically (the `chartData` payload). -/
inductive JsVal where
  | undef
  | null
  | bool (b : Bool)
  | num (n : Int)
  | str (s : String)
  | arr (elems : List JsVal)
  | obj

/-- JavaScript truthiness of a value.  Arrays and objects are always
truthy (in particular the empty array `[]` is truthy). -/
def JsVal.truthy : JsVal → Bool
  | .undef => false
  | .null => false
  | .bool b => b
  | .num n => n != 0
  | .str s => s != ""
  | .arr _ => true
  | .obj => true

/-- `Array.isArray`. -/
def JsVal.isArr : JsVal → Bool
  | .arr _ => true
  | _ => false

/-- `.length` of an array value (`0` on non-arrays; the code only reads it
after an `Array.isArray` check). -/
def JsVal.arrLen : JsVal → Nat
  | .arr xs => xs.length
  | _ => 0

/-- The elements of an array value. -/
def JsVal.arrElems : JsVal → List JsVal
  | .arr xs => xs
  | _ => []

/-- Truthiness of an optional string field: absent and `""` are falsy. -/
def truthyStr : Option String → Bool
  | some s => s != ""
  | none => false

/-- Truthiness of an optional boolean field: absent and `false` are falsy. -/
def jsTruthy : Option Bool → Bool
  | some b => b
  | none => false

/-- JavaScript `a || d` for an optional string `a` and a string default
`d` (used for `step.type || "step"`, `step.xKey || "x"`,
`res.error || "Failed to get response"`). -/
def jsOrStr (a : Option String) (d : String) : String :=
  match a with
  | some s => if s = "" then d else s
  | none => d

/-- JavaScript `a || b` for two optional strings (used for
`res.data?.ai_summary || res.data?.summary`). -/
def jsOrOpt (a b : Option String) : Option String :=
  if truthyStr a then a else b

/-- One chat message.  `id` is optional because `FloatingAgent` builds its
message objects without any `id` field; `content` is optional because the
code copies possibly-absent backend fields into it verbatim. -/
structure Msg where
  id : Option Nat := none
  type : String := ""
  content : Option String := none
deriving DecidableEq

/-- One backend-reported reasoning step (element of `response.data.steps`). -/
structure Step where
  type : Option String := none
  content : Option String := none
  chartData : Option JsVal := none
  xKey : Option String := none
  yKey : Option String := none

/-- The `data` object of a research response. -/
structure RData where
  steps : Option (List Step) := none
  ai_summary : Option String := none
  summary : Option String := none
  recommendations : Option (List String) := none

/-- A parsed research response body. -/
structure ResearchResponse where
  data : Option RData := none

/-- A parsed LLM response body (`{ success, model, response }` or
`{ error }`). -/
structure LLMResponse where
  success : Option Bool := none
  model : Option String := none
  response : Option String := none
  error : Option String := none
deriving DecidableEq

/-! ## String utilities (JavaScript semantics) -/

/-- The whitespace class used by the embedding for `\s` in the regexes and
for `String.prototype.trim` (space, tab, LF, CR, VT, FF — the ASCII part
of the JavaScript class; the tickers and queries at issue are ASCII). -/
def isJsWs (c : Char) : Bool :=
  c = ' ' || c = '\t' || c = '\n' || c = '\r' || c = Char.ofNat 11 || c = Char.ofNat 12

/-- `trim`: drop whitespace from both ends. -/
def trimJs (cs : List Char) : List Char :=
  ((cs.dropWhile isJsWs).reverse.dropWhile isJsWs).reverse

/-- `String.prototype.trim`. -/
def trimS (s : String) : String :=
  ⟨trimJs s.data⟩

/-- Does `hay` start with `needle`? -/
def leadsWith : List Char → List Char → Bool
  | _, [] => true
  | [], _ :: _ => false
  | c :: cs, d :: ds => c = d && leadsWith cs ds

/-- `hay.replace(needle, "")` for a plain-string needle: remove the first
occurrence of `needle` (no change when it does not occur). -/
def dropFirstOccur (hay needle : List Char) : List Char :=
  match hay with
  | [] => []
  | c :: cs =>
    if leadsWith (c :: cs) needle then (c :: cs).drop needle.length
    else c :: dropFirstOccur cs needle

/-! ## The two recognizers of `FloatingAgent.sendMessage`

`userInput.match(/([A-Z]+\.(NS|BO))/i)` and
`userInput.match(/analyze\s+([A-Z]+)/i)`.

Both regexes start with a greedy atom whose character class is disjoint
from the character that must follow it, so the JavaScript backtracking
search at a given start position succeeds exactly when the maximal run is
followed by the required characters; the leftmost match is found by
scanning start positions left to right. -/

/-- Try `/([A-Z]+\.(NS|BO))/i` anchored at the head of `cs`; on success
return the matched characters (which are also capture group 1). -/
def matchTickerAt (cs : List Char) : Option (List Char) :=
  let run := cs.takeWhile Char.isAlpha
  let rest := cs.dropWhile Char.isAlpha
  if run.isEmpty then none
  else
    match rest with
    | '.' :: a :: b :: _ =>
      if (a.toLower = 'n' && b.toLower = 's') || (a.toLower = 'b' && b.toLower = 'o') then
        some (run ++ ['.', a, b])
      else none
    | _ => none

/-- Leftmost match of `/([A-Z]+\.(NS|BO))/i` in `cs`. -/
def findTickerMatch : List Char → Option (List Char)
  | [] => none
  | c :: cs =>
    match matchTickerAt (c :: cs) with
    | some m => some m
    | none => findTickerMatch cs

/-- Try `/analyze\s+([A-Z]+)/i` anchored at the head of `cs`; on success
return the whole match and capture group 1. -/
def matchAnalyzeAt (cs : List Char) : Option (List Char × List Char) :=
  match cs with
  | c1 :: c2 :: c3 :: c4 :: c5 :: c6 :: c7 :: rest =>
    if [c1, c2, c3, c4, c5, c6, c7].map Char.toLower = ['a', 'n', 'a', 'l', 'y', 'z', 'e'] then
      let ws := rest.takeWhile isJsWs
      let rest2 := rest.dropWhile isJsWs
      let run := rest2.takeWhile Char.isAlpha
      if ws.isEmpty || run.isEmpty then none
      else some ([c1, c2, c3, c4, c5, c6, c7] ++ ws ++ run, run)
    else none
  | _ => none

/-- Leftmost match of `/analyze\s+([A-Z]+)/i` in `cs`. -/
def findAnalyzeMatch : List Char → Option (List Char × List Char)
  | [] => none
  | c :: cs =>
    match matchAnalyzeAt (c :: cs) with
    | some m => some m
    | none => findAnalyzeMatch cs

/-- Where `sendMessage` routes a (trimmed) user input. -/
inductive Route where
  | research (ticker query : String)
  | llm (model prompt : String)
deriving DecidableEq

/-- `query = ... || "Provide a comprehensive analysis"`. -/
def orDefaultQuery (q : String) : String :=
  if q = "" then "Provide a comprehensive analysis" else q

/-- The ticker/query classifier inside `FloatingAgent.sendMessage`: try the
ticker-suffix regex, then the `analyze <TICKER>` regex; on a match, the
ticker is capture group 1 uppercased and the query is the input with the
whole match removed and trimmed (defaulted when empty); otherwise route to
`runLLM("auto", userInput)`. -/
def classify (userInput : String) : Route :=
  match findTickerMatch userInput.data with
  | some m0 =>
    .research ⟨m0.map Char.toUpper⟩
      (orDefaultQuery ⟨trimJs (dropFirstOccur userInput.data m0)⟩)
  | none =>
    match findAnalyzeMatch userInput.data with
    | some (m0, g1) =>
      .research ⟨g1.map Char.toUpper⟩
        (orDefaultQuery ⟨trimJs (dropFirstOccur userInput.data m0)⟩)
    | none => .llm "auto" userInput

/-! ## API client (`agentApi.js`)

Each wrapper performs exactly one `fetch` — embedded as the single
`HttpResp` argument (status plus parsed JSON body) — with no retry,
timeout or caching; on a non-ok status it throws, otherwise it returns the
parsed body unmodified. -/

/-- One HTTP response: status code and parsed JSON body. -/
structure HttpResp (β : Type) where
  status : Nat
  body : β

/-- `Response.ok`: status in the inclusive range 200–299. -/
def httpOk (status : Nat) : Bool :=
  decide (200 ≤ status ∧ status ≤ 299)

/-- `runResearchAgent`: POST `/research`; throw on non-ok, else return the
parsed body. -/
def runResearchAgentApi {β : Type} (r : HttpResp β) : Except String β :=
  if httpOk r.status then .ok r.body
  else .error ("Research agent error: " ++ toString r.status)

/-- `runSentimentAgent`: POST `/sentiment`. -/
def runSentimentAgentApi {β : Type} (r : HttpResp β) : Except String β :=
  if httpOk r.status then .ok r.body
  else .error ("Sentiment agent error: " ++ toString r.status)

/-- `runPortfolioAgent`: POST `/portfolio`. -/
def runPortfolioAgentApi {β : Type} (r : HttpResp β) : Except String β :=
  if httpOk r.status then .ok r.body
  else .error ("Portfolio agent error: " ++ toString r.status)

/-- `runLLM`: POST `/llm`. -/
def runLLMApi {β : Type} (r : HttpResp β) : Except String β :=
  if httpOk r.status then .ok r.body
  else .error ("LLM API error: " ++ toString r.status)

/-! ## `ResearchAgent` component state and handlers -/

/-- The `useState` slots of the `ResearchAgent` component (`collapsedSteps`
is the JS object keyed by step index; scroll/PDF refs are not state). -/
structure RState where
  messages : List Msg := []
  steps : List Step := []
  finalAns : String := ""
  loading : Bool := false
  exporting : Bool := false
  query : String := ""
  ticker : String := ""
  collapsedSteps : Nat → Option Bool := fun _ => none

/-- `toggleStep(index)`: spread the previous map and overwrite index with
the negation of the truthy coercion of its entry. -/
def toggleStep (prev : Nat → Option Bool) (index : Nat) : Nat → Option Bool :=
  fun j => if j = index then some (!jsTruthy (prev index)) else prev j

/-- The `user` message built at the start of `runAgent` (`Date.now()` is
the clock argument `t`). -/
def userMessage (t : Nat) (ticker query : String) : Msg :=
  { id := some t, type := "user", content := some ("Ticker: " ++ ticker ++ "\nQuery: " ++ query) }

/-- The state of `ResearchAgent` at the moment `runAgent` issues its
request: the guard has passed, the user message is appended, `steps` and
`finalAns` are cleared, `loading` is set. -/
def runAgentPre (st : RState) (t0 : Nat) : RState :=
  { st with
    messages := st.messages ++ [userMessage t0 st.ticker st.query]
    steps := []
    finalAns := ""
    loading := true }

/-- The success branch of `runAgent`: a truthy `res.data?.steps` replaces
the steps list; a truthy `res.data?.ai_summary` sets `finalAns` and
appends one `agent` message (`Date.now()` at response time is `t1`). -/
def runAgentOk (st1 : RState) (t1 : Nat) (res : ResearchResponse) : RState :=
  let st2 :=
    match res.data.bind RData.steps with
    | some ss => { st1 with steps := ss }
    | none => st1
  let st3 :=
    match res.data.bind RData.ai_summary with
    | some s =>
      if s = "" then st2
      else
        { st2 with
          finalAns := s
          messages := st2.messages ++ [({ id := some (t1 + 1), type := "agent", content := some s } : Msg)] }
    | none => st2
  { st3 with loading := false }

/-- `runAgent`: guard on blank query/ticker, append the user message,
clear `steps`/`finalAns`, set `loading`, issue the request (`outcome` is
what `runResearchAgent` returned or threw), handle the result, and clear
`loading`.  The `catch` branch appends one fixed `error` message. -/
def runAgent (st : RState) (t0 t1 : Nat) (outcome : Except String ResearchResponse) : RState :=
  if trimS st.query = "" || trimS st.ticker = "" then st
  else
    let st1 := runAgentPre st t0
    match outcome with
    | .ok res => runAgentOk st1 t1 res
    | .error _ =>
      { st1 with
        messages := st1.messages ++
          [{ id := some (t1 + 2), type := "error", content := some "Research Agent crashed. Try again." }]
        loading := false }

/-- Result of an async handler that has no `try`/`catch`: the component
state it left behind, plus the rejection that escaped it (if any). -/
structure HandlerResult where
  state : RState
  uncaught : Option String := none

/-- `runGemini`: guard on blank query, set `loading`, call the LLM wrapper
with NO `try`/`catch` — a thrown transport error escapes the handler with
`loading` still `true` and no message appended; on success one `agent`
message with content `res.response` is appended unconditionally. -/
def runGemini (st : RState) (t : Nat) (outcome : Except String LLMResponse) : HandlerResult :=
  if trimS st.query = "" then { state := st }
  else
    let st1 := { st with loading := true }
    match outcome with
    | .error e => { state := st1, uncaught := some e }
    | .ok res =>
      { state :=
          { st1 with
            messages := st1.messages ++ [{ id := some t, type := "agent", content := res.response }]
            loading := false } }

/-- `runGroq`: textually identical to `runGemini` up to the model preset
fixed inside the API wrapper. -/
def runGroq (st : RState) (t : Nat) (outcome : Except String LLMResponse) : HandlerResult :=
  if trimS st.query = "" then { state := st }
  else
    let st1 := { st with loading := true }
    match outcome with
    | .error e => { state := st1, uncaught := some e }
    | .ok res =>
      { state :=
          { st1 with
            messages := st1.messages ++ [{ id := some t, type := "agent", content := res.response }]
            loading := false } }

/-- Result of `handleExportPdf`: the component state, what was alerted,
what was logged to the console, and the file name saved (if any). -/
structure ExportResult where
  state : RState
  alerted : Option String := none
  logged : Option String := none
  saved : Option String := none

/-- `handleExportPdf`: no-op without a pane ref; otherwise set
`exporting`, rasterize-and-write inside `try` (`outcome` is the combined
html2canvas/jsPDF computation, `.error` when any of it throws), `catch`
logs and alerts, and `exporting` is cleared in every path. -/
def handleExportPdf (st : RState) (hasRef : Bool) (outcome : Except String Unit) : ExportResult :=
  if !hasRef then { state := st }
  else
    match outcome with
    | .ok _ => { state := { st with exporting := false }, saved := some "research-report.pdf" }
    | .error e =>
      { state := { st with exporting := false }
        alerted := some "Failed to export PDF"
        logged := some e }

/-! ## `FloatingAgent` component state and `sendMessage` -/

/-- The `useState` slots of `FloatingAgent` that `sendMessage` touches
(the `open` flag only drives CSS visibility). -/
structure FState where
  messages : List Msg := []
  input : String := ""
  isThinking : Bool := false
deriving DecidableEq

/-- The message `FloatingAgent` appends for one backend step:
`{ type: s.type || "step", content: s.content }` — no `id` field. -/
def stepToMsg (s : Step) : Msg :=
  { id := none, type := jsOrStr s.type "step", content := s.content }

/-- The message list after the research branch of `sendMessage` handled a
successful response: each step (when `res.data?.steps` is truthy) is
appended as its own message; then `res.data?.ai_summary || res.data?.summary`,
when truthy, appends one `agent` message; otherwise a present
`res.data?.recommendations` appends one `agent` message joining the list
with newlines; otherwise nothing more is appended. -/
def researchBranchMsgs (msgs : List Msg) (res : ResearchResponse) : List Msg :=
  let withSteps :=
    match res.data.bind RData.steps with
    | some ss => msgs ++ ss.map stepToMsg
    | none => msgs
  let summary := jsOrOpt (res.data.bind RData.ai_summary) (res.data.bind RData.summary)
  if truthyStr summary then
    withSteps ++ [{ id := none, type := "agent", content := summary }]
  else
    match res.data.bind RData.recommendations with
    | some recs =>
      withSteps ++
        [{ id := none, type := "agent",
           content := some ("**Recommendations:**\n" ++ String.intercalate "\n" recs) }]
    | none => withSteps

/-- The message list after the LLM branch of `sendMessage` handled a
successful response: one `agent` message when `res.success && res.response`
is truthy, else one `error` message using `res.error || "Failed to get
response"`. -/
def llmBranchMsgs (msgs : List Msg) (res : LLMResponse) : List Msg :=
  if jsTruthy res.success && truthyStr res.response then
    msgs ++ [{ id := none, type := "agent", content := res.response }]
  else
    msgs ++ [{ id := none, type := "error", content := some (jsOrStr res.error "Failed to get response") }]

/-- The `catch` of `sendMessage`: one `error` message interpolating
`err.message || "Agent failed. Try again."`. -/
def sendCatchMsgs (msgs : List Msg) (e : String) : List Msg :=
  msgs ++
    [{ id := none, type := "error",
       content := some ("⚠️ Error: " ++ (if e = "" then "Agent failed. Try again." else e)) }]

/-- `FloatingAgent.sendMessage`: guard on blank input, append the raw
input as a `user` message (no `id`), clear the input box, set
`isThinking`, classify the trimmed input, run the routed operation
(`researchOutcome` / `llmOutcome` are what the respective API wrappers
returned or threw), handle the result (the `catch` covers both routes),
and clear `isThinking`. -/
def sendMessage (st : FState) (researchOutcome : Except String ResearchResponse)
    (llmOutcome : Except String LLMResponse) : FState :=
  if trimS st.input = "" then st
  else
    let userInput := trimS st.input
    let msgs1 := st.messages ++ [{ id := none, type := "user", content := some st.input }]
    let msgs2 :=
      match classify userInput with
      | .research _ _ =>
        match researchOutcome with
        | .ok res => researchBranchMsgs msgs1 res
        | .error e => sendCatchMsgs msgs1 e
      | .llm _ _ =>
        match llmOutcome with
        | .ok res => llmBranchMsgs msgs1 res
        | .error e => sendCatchMsgs msgs1 e
    { messages := msgs2, input := "", isThinking := false }

/-! ## Chart rendering (`StepItem` / `ChartCard`) -/

/-- What the chart area of one step renders to. -/
inductive ChartRender where
  | placeholder
  | chart (xKey yKey : String) (data : List JsVal)

/-- `ChartCard`: `!data || !Array.isArray(data) || data.length === 0`
renders the "No chart data" placeholder, otherwise the line chart over
`data` with the given axis keys. -/
def ChartCard (data : JsVal) (xKey yKey : String) : ChartRender :=
  if !data.truthy || !data.isArr || data.arrLen == 0 then .placeholder
  else .chart xKey yKey data.arrElems

/-- Truthiness of `step.chartData`. -/
def chartDataTruthy (s : Step) : Bool :=
  match s.chartData with
  | some v => v.truthy
  | none => false

/-- The chart area `StepItem` renders for one step: nothing when the step
is collapsed or when `step.type === "chart" && step.chartData` fails;
otherwise `ChartCard` applied to `step.chartData` with
`step.xKey || "x"` and `step.yKey || "y"`. -/
def stepChartRegion (s : Step) (collapsed : Bool) : Option ChartRender :=
  let isChart := s.type == some "chart" && chartDataTruthy s
  if collapsed then none
  else if isChart then
    some (ChartCard (s.chartData.getD .undef) (jsOrStr s.xKey "x") (jsOrStr s.yKey "y"))
  else none

/-! ## Claim theorems -/

/-- C3: every API-client operation performs its single round trip and, on a
non-successful HTTP status, throws an error whose message is the operation
name followed by " error: " and the status; on a successful status it
returns the parsed body unmodified.  (The single `HttpResp` argument each
wrapper consumes is that one round trip: there is no retry, timeout or
caching in the definitions.) -/
theorem C3_apiClient_contract (β : Type) (r : HttpResp β) :
    (httpOk r.status = false →
      runResearchAgentApi r = .error ("Research agent error: " ++ toString r.status) ∧
      runSentimentAgentApi r = .error ("Sentiment agent error: " ++ toString r.status) ∧
      runPortfolioAgentApi r = .error ("Portfolio agent error: " ++ toString r.status) ∧
      runLLMApi r = .error ("LLM API error: " ++ toString r.status)) ∧
    (httpOk r.status = true →
      runResearchAgentApi r = .ok r.body ∧
      runSentimentAgentApi r = .ok r.body ∧
      runPortfolioAgentApi r = .ok r.body ∧
      runLLMApi r = .ok r.body) := by
  constructor <;> intro h <;>
    simp [runResearchAgentApi, runSentimentAgentApi, runPortfolioAgentApi, runLLMApi, h]

/-- C3 witness: status 500 throws with the documented message on every
operation; status 200 returns the body unmodified. -/
theorem C3_apiClient_contract_witness :
    runResearchAgentApi (⟨500, 0⟩ : HttpResp Nat) = .error ("Research agent error: " ++ toString 500) ∧
    runSentimentAgentApi (⟨500, 0⟩ : HttpResp Nat) = .error ("Sentiment agent error: " ++ toString 500) ∧
    runPortfolioAgentApi (⟨500, 0⟩ : HttpResp Nat) = .error ("Portfolio agent error: " ++ toString 500) ∧
    runLLMApi (⟨500, 0⟩ : HttpResp Nat) = .error ("LLM API error: " ++ toString 500) ∧
    runResearchAgentApi (⟨200, 37⟩ : HttpResp Nat) = .ok 37 := by
  have h5 := (C3_apiClient_contract Nat ⟨500, 0⟩).1 (by decide)
  have h2 := (C3_apiClient_contract Nat ⟨200, 37⟩).2 (by decide)
  exact ⟨h5.1, h5.2.1, h5.2.2.1, h5.2.2.2, h2.1⟩

/-- C6: whenever the guard passes, `runAgent` proceeds from `runAgentPre`,
whose `steps` and `finalAns` are cleared to empty before the request is
issued — both slots belong to the new run alone. -/
theorem C6_run_clears_steps_and_answer (st : RState) (t0 : Nat)
    (hq : trimS st.query ≠ "") (ht : trimS st.ticker ≠ "") :
    (runAgentPre st t0).steps = [] ∧ (runAgentPre st t0).finalAns = "" ∧
    ∀ t1 outcome, runAgent st t0 t1 outcome =
      match outcome with
      | .ok res => runAgentOk (runAgentPre st t0) t1 res
      | .error _ =>
        { runAgentPre st t0 with
          messages := (runAgentPre st t0).messages ++
            [{ id := some (t1 + 2), type := "error", content := some "Research Agent crashed. Try again." }]
          loading := false } := by
  refine ⟨rfl, rfl, ?_⟩
  intro t1 outcome
  simp only [runAgent, hq, ht]
  cases outcome <;> simp

/-- C6 witness at a concrete state. -/
theorem C6_run_clears_steps_and_answer_witness :
    (runAgentPre { query := "Outlook?", ticker := "TCS" } 5).steps = [] ∧
    (runAgentPre { query := "Outlook?", ticker := "TCS" } 5).finalAns = "" := by
  have h := C6_run_clears_steps_and_answer { query := "Outlook?", ticker := "TCS" } 5
    (by decide) (by decide)
  exact ⟨h.1, h.2.1⟩

/-- C8: when the rasterize-or-write computation throws, `handleExportPdf`
catches it, logs it, alerts the user, clears the `exporting` flag, and
leaves messages, steps, finalAnswer, loading (and the rest of the state)
unchanged. -/
theorem C8_export_failure_frame (st : RState) (e : String) :
    (handleExportPdf st true (.error e)).state.messages = st.messages ∧
    (handleExportPdf st true (.error e)).state.steps = st.steps ∧
    (handleExportPdf st true (.error e)).state.finalAns = st.finalAns ∧
    (handleExportPdf st true (.error e)).state.loading = st.loading ∧
    (handleExportPdf st true (.error e)).state.query = st.query ∧
    (handleExportPdf st true (.error e)).state.ticker = st.ticker ∧
    (handleExportPdf st true (.error e)).state.collapsedSteps = st.collapsedSteps ∧
    (handleExportPdf st true (.error e)).state.exporting = false ∧
    (handleExportPdf st true (.error e)).alerted = some "Failed to export PDF" ∧
    (handleExportPdf st true (.error e)).logged = some e ∧
    (handleExportPdf st true (.error e)).saved = none := by
  simp [handleExportPdf]

/-- C9: applying `toggleStep` twice at index `i` restores the observed
collapsed flag (the boolean coercion of the map entry) at `i` and leaves
the entry of every other index unchanged. -/
theorem C9_toggleStep_double_restores (m : Nat → Option Bool) (i j : Nat) :
    jsTruthy (toggleStep (toggleStep m i) i i) = jsTruthy (m i) ∧
    (j ≠ i → toggleStep (toggleStep m i) i j = m j) := by
  constructor
  · simp [toggleStep, jsTruthy]
  · intro h
    simp [toggleStep, h]

/-- C9 witness: double toggle at index 0 on the initially-empty map. -/
theorem C9_toggleStep_double_restores_witness :
    jsTruthy (toggleStep (toggleStep (fun _ => none) 0) 0 0) = jsTruthy ((fun _ => (none : Option Bool)) 0) ∧
    toggleStep (toggleStep (fun _ => none) 0) 0 1 = (fun _ => (none : Option Bool)) 1 := by
  have h := C9_toggleStep_double_restores (fun _ => none) 0 1
  exact ⟨h.1, h.2 (by decide)⟩

/-- C1 counterexample: a research response carrying only
`{data:{recommendations:["Buy","Hold"]}}` handled by `ResearchAgent.runAgent`
appends NO message at all — `runAgent` has no recommendations branch —
whereas the claim requires exactly one `agent` message ending in
"**Recommendations:**\nBuy\nHold". -/
theorem C1_counterexample :
    (runAgent { query := "Outlook?", ticker := "TCS" } 10 11
        (.ok { data := some { recommendations := some ["Buy", "Hold"] } })).messages =
      [{ id := some 10, type := "user", content := some "Ticker: TCS\nQuery: Outlook?" }] := by
  rfl

/-- C1 amended: the two handlers differ.  `ResearchAgent.runAgent` replaces
the steps list wholesale when `data.steps` is present (cleared otherwise),
and a truthy `data.ai_summary` appends exactly one `agent` message and sets
FinalAnswer — `summary` and `recommendations` are ignored and otherwise no
message is appended.  `FloatingAgent`'s research branch keeps no steps list
or FinalAnswer: each step is appended to the message log as its own
message in order; a truthy `ai_summary || summary` appends one `agent`
message; otherwise a present `recommendations` appends one `agent` message
whose content is "**Recommendations:**\n" followed by the list joined with
newlines; otherwise no message is appended. -/
theorem C1_amended_result_handling :
    (∀ st t0 t1 res, trimS st.query ≠ "" → trimS st.ticker ≠ "" →
      ((∀ ss, res.data.bind RData.steps = some ss → (runAgent st t0 t1 (.ok res)).steps = ss) ∧
       (res.data.bind RData.steps = none → (runAgent st t0 t1 (.ok res)).steps = []) ∧
       (∀ s, res.data.bind RData.ai_summary = some s → s ≠ "" →
         (runAgent st t0 t1 (.ok res)).messages =
           (runAgentPre st t0).messages ++ [{ id := some (t1 + 1), type := "agent", content := some s }] ∧
         (runAgent st t0 t1 (.ok res)).finalAns = s) ∧
       (truthyStr (res.data.bind RData.ai_summary) = false →
         (runAgent st t0 t1 (.ok res)).messages = (runAgentPre st t0).messages ∧
         (runAgent st t0 t1 (.ok res)).finalAns = ""))) ∧
    (∀ msgs res,
      (truthyStr (jsOrOpt (res.data.bind RData.ai_summary) (res.data.bind RData.summary)) = true →
        researchBranchMsgs msgs res =
          msgs ++ (match res.data.bind RData.steps with
                   | some ss => ss.map stepToMsg
                   | none => []) ++
            [{ id := none, type := "agent",
               content := jsOrOpt (res.data.bind RData.ai_summary) (res.data.bind RData.summary) }]) ∧
      (truthyStr (jsOrOpt (res.data.bind RData.ai_summary) (res.data.bind RData.summary)) = false →
        ∀ recs, res.data.bind RData.recommendations = some recs →
        researchBranchMsgs msgs res =
          msgs ++ (match res.data.bind RData.steps with
                   | some ss => ss.map stepToMsg
                   | none => []) ++
            [{ id := none, type := "agent",
               content := some ("**Recommendations:**\n" ++ String.intercalate "\n" recs) }]) ∧
      (truthyStr (jsOrOpt (res.data.bind RData.ai_summary) (res.data.bind RData.summary)) = false →
        res.data.bind RData.recommendations = none →
        researchBranchMsgs msgs res =
          msgs ++ (match res.data.bind RData.steps with
                   | some ss => ss.map stepToMsg
                   | none => []))) := by
  constructor
  · intro st t0 t1 res hq ht
    refine ⟨?_, ?_, ?_, ?_⟩
    · intro ss h
      rcases h2 : res.data.bind RData.ai_summary with _ | s
      · simp [runAgent, hq, ht, runAgentOk, runAgentPre, h, h2]
      · by_cases hs : s = "" <;>
          simp [runAgent, hq, ht, runAgentOk, runAgentPre, h, h2, hs]
    · intro h
      rcases h2 : res.data.bind RData.ai_summary with _ | s
      · simp [runAgent, hq, ht, runAgentOk, runAgentPre, h, h2]
      · by_cases hs : s = "" <;>
          simp [runAgent, hq, ht, runAgentOk, runAgentPre, h, h2, hs]
    · intro s h hne
      rcases h1 : res.data.bind RData.steps with _ | ss <;>
        simp [runAgent, hq, ht, runAgentOk, runAgentPre, h, h1, hne]
    · intro h
      rcases h2 : res.data.bind RData.ai_summary with _ | s
      · rcases h1 : res.data.bind RData.steps with _ | ss <;>
          simp [runAgent, hq, ht, runAgentOk, runAgentPre, h1, h2]
      · rw [h2] at h
        simp only [truthyStr, bne_eq_false_iff_eq] at h
        rcases h1 : res.data.bind RData.steps with _ | ss <;>
          simp [runAgent, hq, ht, runAgentOk, runAgentPre, h1, h2, h]
  · intro msgs res
    refine ⟨?_, ?_, ?_⟩
    · intro h
      rcases h1 : res.data.bind RData.steps with _ | ss <;>
        simp [researchBranchMsgs, h, h1]
    · intro h recs hr
      rcases h1 : res.data.bind RData.steps with _ | ss <;>
        simp [researchBranchMsgs, h, h1, hr]
    · intro h hr
      rcases h1 : res.data.bind RData.steps with _ | ss <;>
        simp [researchBranchMsgs, h, h1, hr]

/-- C1 witness: the spec's mock response with one step and
`ai_summary = "Buy signal"` yields that step list and final answer in
`runAgent`; the recommendations-only mock yields exactly the
"**Recommendations:**\nBuy\nHold" `agent` message in the FloatingAgent
research branch. -/
theorem C1_amended_result_handling_witness :
    (runAgent { query := "Outlook?", ticker := "TCS" } 10 11
        (.ok { data := some { steps := some [{ type := some "tool", content := some "fetched price" }],
                              ai_summary := some "Buy signal" } })).steps =
      [{ type := some "tool", content := some "fetched price" }] ∧
    (runAgent { query := "Outlook?", ticker := "TCS" } 10 11
        (.ok { data := some { steps := some [{ type := some "tool", content := some "fetched price" }],
                              ai_summary := some "Buy signal" } })).finalAns = "Buy signal" ∧
    researchBranchMsgs [] { data := some { recommendations := some ["Buy", "Hold"] } } =
      [{ id := none, type := "agent", content := some "**Recommendations:**\nBuy\nHold" }] := by
  have h := C1_amended_result_handling
  have h1 := (h.1 { query := "Outlook?", ticker := "TCS" } 10 11
      { data := some { steps := some [{ type := some "tool", content := some "fetched price" }],
                       ai_summary := some "Buy signal" } } (by decide) (by decide))
  have hsteps := h1.1 [{ type := some "tool", content := some "fetched price" }] rfl
  have hsum := h1.2.2.1 "Buy signal" rfl (by decide)
  have hrec := (h.2 [] { data := some { recommendations := some ["Buy", "Hold"] } }).2.1
      (by decide) ["Buy", "Hold"] rfl
  exact ⟨hsteps, hsum.2, hrec⟩

/-- C2: on a non-blank input, `sendMessage` tries the ticker-suffix regex
first and the `analyze <TICKER>` regex only if that fails; a match routes
to research with the matched ticker uppercased and the query being the
input with the match removed and trimmed (the fixed default when empty);
with no match the input is routed to the generic LLM operation with model
marker "auto".  The last two routing conjuncts show `sendMessage` consults
only the outcome of the routed operation. -/
theorem C2_classifier_routing (st : FState) (hs : trimS st.input ≠ "") :
    (∀ m0, findTickerMatch (trimS st.input).data = some m0 →
      classify (trimS st.input) =
        .research ⟨m0.map Char.toUpper⟩
          (orDefaultQuery ⟨trimJs (dropFirstOccur (trimS st.input).data m0)⟩)) ∧
    (findTickerMatch (trimS st.input).data = none →
      ∀ m0 g1, findAnalyzeMatch (trimS st.input).data = some (m0, g1) →
      classify (trimS st.input) =
        .research ⟨g1.map Char.toUpper⟩
          (orDefaultQuery ⟨trimJs (dropFirstOccur (trimS st.input).data m0)⟩)) ∧
    (findTickerMatch (trimS st.input).data = none →
      findAnalyzeMatch (trimS st.input).data = none →
      classify (trimS st.input) = .llm "auto" (trimS st.input)) ∧
    (∀ tk q, classify (trimS st.input) = .research tk q →
      ∀ ro lo lo', sendMessage st ro lo = sendMessage st ro lo') ∧
    (∀ m p, classify (trimS st.input) = .llm m p →
      ∀ ro ro' lo, sendMessage st ro lo = sendMessage st ro' lo) ∧
    orDefaultQuery "" = "Provide a comprehensive analysis" := by
  refine ⟨?_, ?_, ?_, ?_, ?_, rfl⟩
  · intro m0 h
    simp [classify, h]
  · intro h m0 g1 h2
    simp [classify, h, h2]
  · intro h h2
    simp [classify, h, h2]
  · intro tk q hcl ro lo lo'
    simp [sendMessage, hs, hcl]
  · intro m p hcl ro ro' lo
    simp [sendMessage, hs, hcl]

/-- C2 witness: the spec's three concrete classifier examples. -/
theorem C2_classifier_routing_witness :
    classify (trimS "analyze TCS") = .research "TCS" "Provide a comprehensive analysis" ∧
    classify (trimS "RELIANCE.NS describe the company") = .research "RELIANCE.NS" "describe the company" ∧
    classify (trimS "what is a stock") = .llm "auto" "what is a stock" := by
  have h1 := (C2_classifier_routing { input := "analyze TCS" } (by decide)).2.1
      (by decide) "analyze TCS".data "TCS".data (by decide)
  have h2 := (C2_classifier_routing { input := "RELIANCE.NS describe the company" } (by decide)).1
      "RELIANCE.NS".data (by decide)
  have h3 := (C2_classifier_routing { input := "what is a stock" } (by decide)).2.2.1
      (by decide) (by decide)
  exact ⟨h1.trans (by decide), h2.trans (by decide), h3.trans (by decide)⟩

/-- C4 counterexample: `runGemini` has no `try`/`catch`; a transport error
thrown by the LLM wrapper (status 500) escapes the handler, no `error`
message is appended, and `loading` stays `true` — contradicting the claim
for this UI-triggered operation. -/
theorem C4_counterexample :
    (runGemini { query := "hi" } 0 (.error "LLM API error: 500")).uncaught = some "LLM API error: 500" ∧
    (runGemini { query := "hi" } 0 (.error "LLM API error: 500")).state.loading = true ∧
    (runGemini { query := "hi" } 0 (.error "LLM API error: 500")).state.messages = [] :=
  ⟨rfl, rfl, rfl⟩

/-- C4 amended: transport errors are caught and converted to exactly one
`error`-typed message with the busy flag cleared and no other state
mutated in `ResearchAgent.runAgent` and in `FloatingAgent.sendMessage`
(both routes); but in `ResearchAgent.runGemini` and `runGroq` the error is
not caught: it propagates out of the handler, no message is appended, and
`loading` remains `true`. -/
theorem C4_amended_error_paths :
    (∀ st t0 t1 e, trimS st.query ≠ "" → trimS st.ticker ≠ "" →
      (runAgent st t0 t1 (.error e)).messages =
        (runAgentPre st t0).messages ++
          [{ id := some (t1 + 2), type := "error", content := some "Research Agent crashed. Try again." }] ∧
      (runAgent st t0 t1 (.error e)).loading = false ∧
      (runAgent st t0 t1 (.error e)).steps = [] ∧
      (runAgent st t0 t1 (.error e)).finalAns = "" ∧
      (runAgent st t0 t1 (.error e)).query = st.query ∧
      (runAgent st t0 t1 (.error e)).ticker = st.ticker ∧
      (runAgent st t0 t1 (.error e)).exporting = st.exporting ∧
      (runAgent st t0 t1 (.error e)).collapsedSteps = st.collapsedSteps) ∧
    (∀ st e ro lo, trimS st.input ≠ "" →
      (∀ tk q, classify (trimS st.input) = .research tk q →
        sendMessage st (.error e) lo =
          { messages := sendCatchMsgs
              (st.messages ++ [{ id := none, type := "user", content := some st.input }]) e
            input := "", isThinking := false }) ∧
      (∀ m p, classify (trimS st.input) = .llm m p →
        sendMessage st ro (.error e) =
          { messages := sendCatchMsgs
              (st.messages ++ [{ id := none, type := "user", content := some st.input }]) e
            input := "", isThinking := false })) ∧
    (∀ st t e, trimS st.query ≠ "" →
      (runGemini st t (.error e)).uncaught = some e ∧
      (runGemini st t (.error e)).state.loading = true ∧
      (runGemini st t (.error e)).state.messages = st.messages ∧
      (runGroq st t (.error e)).uncaught = some e ∧
      (runGroq st t (.error e)).state.loading = true ∧
      (runGroq st t (.error e)).state.messages = st.messages) := by
  refine ⟨?_, ?_, ?_⟩
  · intro st t0 t1 e hq ht
    simp [runAgent, hq, ht, runAgentPre]
  · intro st e ro lo hs
    constructor
    · intro tk q hcl
      simp [sendMessage, hs, hcl]
    · intro m p hcl
      simp [sendMessage, hs, hcl]
  · intro st t e hq
    simp [runGemini, runGroq, hq]

/-- C4 witness: concrete error outcomes through each of the three paths. -/
theorem C4_amended_error_paths_witness :
    (runAgent { query := "Outlook?", ticker := "TCS" } 1 2 (.error "Research agent error: 500")).loading = false ∧
    (runGemini { query := "hi" } 0 (.error "LLM API error: 500")).state.loading = true ∧
    sendMessage { input := "what is a stock" } (.ok {}) (.error "LLM API error: 500") =
      { messages := sendCatchMsgs
          [{ id := none, type := "user", content := some "what is a stock" }] "LLM API error: 500"
        input := "", isThinking := false } := by
  have h := C4_amended_error_paths
  have h1 := h.1 { query := "Outlook?", ticker := "TCS" } 1 2 "Research agent error: 500" (by decide) (by decide)
  have h2 := h.2.2 { query := "hi" } 0 "LLM API error: 500" (by decide)
  have h3 := (h.2.1 { input := "what is a stock" } "LLM API error: 500" (.ok {}) (.error "LLM API error: 500")
      (by decide)).2 "auto" "what is a stock" (by decide)
  exact ⟨h1.2.1, h2.2.1, h3⟩

/-- C5 counterexample: the LLM response `{success:false, error:"rate limited"}`
handled by `ResearchAgent.runGemini` appends an `agent`-typed message with
absent content — not the `error`-typed message with content "rate limited"
that the claim requires for every LLM response handled by the UI. -/
theorem C5_counterexample :
    (runGemini { query := "hi" } 5 (.ok { success := some false, error := some "rate limited" })).state.messages =
      [{ id := some 5, type := "agent", content := none }] := rfl

/-- C5 amended: `FloatingAgent`'s LLM branch behaves as claimed — one
`agent` message with `response.response` when `success && response` is
truthy, else one `error` message with `response.error` or the fixed
fallback; `ResearchAgent.runGemini`/`runGroq` instead append one `agent`
message with content `response.response` unconditionally. -/
theorem C5_amended_llm_results :
    (∀ msgs res, (jsTruthy res.success && truthyStr res.response) = true →
      llmBranchMsgs msgs res = msgs ++ [{ id := none, type := "agent", content := res.response }]) ∧
    (∀ msgs res, (jsTruthy res.success && truthyStr res.response) = false →
      llmBranchMsgs msgs res =
        msgs ++ [{ id := none, type := "error", content := some (jsOrStr res.error "Failed to get response") }]) ∧
    (∀ st t res, trimS st.query ≠ "" →
      (runGemini st t (.ok res)).state.messages =
        st.messages ++ [{ id := some t, type := "agent", content := res.response }] ∧
      (runGroq st t (.ok res)).state.messages =
        st.messages ++ [{ id := some t, type := "agent", content := res.response }]) := by
  refine ⟨?_, ?_, ?_⟩
  · intro msgs res h
    simp [llmBranchMsgs, h]
  · intro msgs res h
    simp [llmBranchMsgs, h]
  · intro st t res hq
    simp [runGemini, runGroq, hq]

/-- C5 witness: the spec's `{success:false, error:"rate limited"}` example
through the FloatingAgent branch yields the `error` message. -/
theorem C5_amended_llm_results_witness :
    llmBranchMsgs [] { success := some false, error := some "rate limited" } =
      [{ id := none, type := "error", content := some "rate limited" }] := by
  have h := C5_amended_llm_results.2.1 [] { success := some false, error := some "rate limited" } (by decide)
  exact h

/-- C7 counterexample: `FloatingAgent` messages carry no id at all (both
ids map to `none`); and in `ResearchAgent` the `Date.now()`-based ids are
not strictly increasing across runs — two runs at the same clock reading
append id 100 after id 101 is already in the log. -/
theorem C7_counterexample :
    (sendMessage { input := "hello world" } (.error "unused")
        (.ok { success := some true, response := some "Hi!" })).messages.map Msg.id = [none, none] ∧
    ((runAgent (runAgent { query := "Outlook?", ticker := "TCS" } 100 100
          (.ok { data := some { ai_summary := some "Buy" } })) 100 100
        (.ok { data := some { ai_summary := some "Buy" } })).messages.map Msg.id) =
      [some 100, some 101, some 100, some 101] := by
  exact ⟨rfl, rfl⟩

/-- C7 amended: only `ResearchAgent` messages carry ids (time-based);
within a single `runAgent` run whose response-time clock is at least its
send-time clock, every appended message carries an id and the appended ids
are strictly increasing — but strict increase across runs (or any id at
all in `FloatingAgent`) is not guaranteed. -/
theorem C7_amended_ids (st : RState) (t0 t1 : Nat) (outcome : Except String ResearchResponse)
    (hq : trimS st.query ≠ "") (ht : trimS st.ticker ≠ "") (hcl : t0 ≤ t1) :
    ∃ ids : List Nat,
      ((runAgent st t0 t1 outcome).messages.drop st.messages.length).map Msg.id = ids.map some ∧
      ids.Chain' (· < ·) := by
  rcases outcome with e | res
  · refine ⟨[t0, t1 + 2], ?_, ?_⟩
    · simp [runAgent, hq, ht, runAgentPre, userMessage, List.drop_left]
    · simp [List.chain'_cons]
      omega
  · rcases h2 : res.data.bind RData.ai_summary with _ | s
    · refine ⟨[t0], ?_, ?_⟩
      · rcases h1 : res.data.bind RData.steps with _ | ss <;>
          simp [runAgent, hq, ht, runAgentOk, runAgentPre, userMessage, h1, h2, List.drop_left]
      · simp
    · by_cases hs : s = ""
      · refine ⟨[t0], ?_, ?_⟩
        · rcases h1 : res.data.bind RData.steps with _ | ss <;>
            simp [runAgent, hq, ht, runAgentOk, runAgentPre, userMessage, h1, h2, hs, List.drop_left]
        · simp
      · refine ⟨[t0, t1 + 1], ?_, ?_⟩
        · rcases h1 : res.data.bind RData.steps with _ | ss <;>
            simp [runAgent, hq, ht, runAgentOk, runAgentPre, userMessage, h1, h2, hs, List.drop_left]
        · simp [List.chain'_cons]
          omega

/-- C7 witness: one concrete successful run with send time 3 and response
time 7. -/
theorem C7_amended_ids_witness :
    ∃ ids : List Nat,
      ((runAgent { query := "Outlook?", ticker := "TCS" } 3 7
          (.ok { data := some { ai_summary := some "Buy" } })).messages.drop 0).map Msg.id = ids.map some ∧
      ids.Chain' (· < ·) := by
  have h := C7_amended_ids { query := "Outlook?", ticker := "TCS" } 3 7
      (.ok { data := some { ai_summary := some "Buy" } }) (by decide) (by decide) (by decide)
  exact h

/-- C10 counterexample: a step of type "chart" whose `chartData` is absent
renders NO chart region at all — `isChart` is falsy, so `ChartCard` is
never invoked and no "No chart data" placeholder appears, contrary to the
claim. -/
theorem C10_counterexample :
    stepChartRegion { type := some "chart" } false = none := rfl

/-- C10 amended: for an expanded chart-typed step, a truthy `chartData`
is rendered through `ChartCard` with `xKey`/`yKey` defaulting to "x"/"y";
`ChartCard` yields the "No chart data" placeholder when the data is not an
array or is an empty array; an absent (falsy) `chartData` renders no chart
region at all; in every case rendering is total (placeholder or chart,
never a failure). -/
theorem C10_amended_chart (s : Step) (hty : s.type = some "chart") :
    (∀ v, s.chartData = some v → v.truthy = true →
      stepChartRegion s false = some (ChartCard v (jsOrStr s.xKey "x") (jsOrStr s.yKey "y"))) ∧
    (∀ v, s.chartData = some v → v.truthy = true → (v.isArr = false ∨ v.arrLen = 0) →
      stepChartRegion s false = some .placeholder) ∧
    (chartDataTruthy s = false → stepChartRegion s false = none) ∧
    stepChartRegion s true = none ∧
    (s.xKey = none → jsOrStr s.xKey "x" = "x") ∧
    (s.yKey = none → jsOrStr s.yKey "y" = "y") ∧
    (∀ v xk yk, ChartCard v xk yk = .placeholder ∨ ChartCard v xk yk = .chart xk yk v.arrElems) := by
  refine ⟨?_, ?_, ?_, rfl, ?_, ?_, ?_⟩
  · intro v hv htr
    simp [stepChartRegion, chartDataTruthy, hty, hv, htr]
  · intro v hv htr hc
    rcases hc with hc | hc <;>
      simp [stepChartRegion, ChartCard, chartDataTruthy, hty, hv, htr, hc]
  · intro h
    simp [stepChartRegion, h]
  · intro h
    simp [jsOrStr, h]
  · intro h
    simp [jsOrStr, h]
  · intro v xk yk
    unfold ChartCard
    split
    · exact Or.inl rfl
    · exact Or.inr rfl

/-- C10 witness: a chart-typed step with an empty-array `chartData` (which
is truthy in JavaScript) renders the placeholder, and an absent `xKey`
defaults to "x". -/
theorem C10_amended_chart_witness :
    stepChartRegion { type := some "chart", chartData := some (.arr []) } false = some .placeholder ∧
    jsOrStr (none : Option String) "x" = "x" := by
  have h := C10_amended_chart { type := some "chart", chartData := some (.arr []) } rfl
  exact ⟨h.2.1 (.arr []) rfl rfl (Or.inr rfl), h.2.2.2.2.1 rfl⟩
